import Mathlib

/-!
Verification of the ticket inventory and payment transaction engine of the
afro_hub_backend repository.  The definitions below are shallow embeddings of
the JavaScript sources:

* `Backend/models/Event.js` — event pricing map and `reduceTicketAvailability`;
* `Backend/controller/event.js` — `parsePricingData` and `validatePricingData`;
* the payment controller — `createOrderController`, `completeOrderController`,
  `cancelOrderController`.

JavaScript numbers are modelled as rationals (`ℚ`) for prices and integers
(`ℤ`) for counts; `Map` objects are modelled as insertion-ordered association
lists; Mongoose documents and queries become explicit state passing over a
`DB` record; the external PayPal adapter is an oracle parameter.
-/

/-- Association-list get, modelling JavaScript `Map.prototype.get`:
returns the value of the first entry whose key matches. -/
def aget {α : Type} : List (String × α) → String → Option α
  | [], _ => none
  | (k, v) :: rest, t => if k = t then some v else aget rest t

/-- Association-list set, modelling JavaScript `Map.prototype.set`:
replaces the value of the first matching entry in place, else appends. -/
def aset {α : Type} : List (String × α) → String → α → List (String × α)
  | [], t, v => [(t, v)]
  | (k, w) :: rest, t, v =>
      if k = t then (t, v) :: rest else (k, w) :: aset rest t v

/-- One ticket type record, the value type of the event's `pricing` map
(`Backend/models/Event.js`). -/
structure TicketTypeData where
  name : String
  price : ℚ
  available : ℤ
  description : String
deriving DecidableEq, Repr

/-- The event's `pricing` field: an insertion-ordered map from ticket-type
id to ticket-type data. -/
abbrev Pricing := List (String × TicketTypeData)

/-- `eventSchema.methods.reduceTicketAvailability` (Event.js lines 88–96):
if the ticket type exists and has at least `quantity` available, decrement
and return `true`; otherwise return `false` leaving the map unchanged.
The JS method mutates `this.pricing`; here the new map is returned. -/
def reduceTicketAvailability (pricing : Pricing) (ticketTypeId : String)
    (quantity : ℤ) : Bool × Pricing :=
  match aget pricing ticketTypeId with
  | some ticketType =>
      if quantity ≤ ticketType.available then
        (true, aset pricing ticketTypeId
          { ticketType with available := ticketType.available - quantity })
      else (false, pricing)
  | none => (false, pricing)

lemma aget_aset_self {α : Type} (l : List (String × α)) (t : String) (v : α) :
    aget (aset l t v) t = some v := by
  induction l with
  | nil => simp [aget, aset]
  | cons hd tl ih =>
      obtain ⟨k, w⟩ := hd
      by_cases hk : k = t
      · simp [aget, aset, hk]
      · simp [aget, aset, hk, ih]

lemma aget_aset_ne {α : Type} (l : List (String × α)) (t u : String) (v : α)
    (h : u ≠ t) : aget (aset l t v) u = aget l u := by
  induction l with
  | nil => simp [aget, aset, Ne.symm h]
  | cons hd tl ih =>
      obtain ⟨k, w⟩ := hd
      by_cases hk : k = t
      · subst hk
        simp [aget, aset, Ne.symm h]
      · simp [aget, aset, hk, ih]

/-- C2: decrement postcondition for `reduceTicketAvailability`.  If the
ticket type `t` is present with at least `q` available, the call returns
`true`, `t`'s available count becomes exactly the old count minus `q`
(non-negative, name/price/description unchanged), and every other ticket
type is untouched; if `t` is absent or has fewer than `q` available, the
call returns `false` and the pricing map is entirely unchanged. -/
theorem reduceTicketAvailability_post (p : Pricing) (t : String) (q : ℤ) :
    (∀ d, aget p t = some d → q ≤ d.available →
      (reduceTicketAvailability p t q).1 = true ∧
      aget (reduceTicketAvailability p t q).2 t =
        some { d with available := d.available - q } ∧
      0 ≤ d.available - q ∧
      (∀ u, u ≠ t → aget (reduceTicketAvailability p t q).2 u = aget p u)) ∧
    ((aget p t = none ∨ ∃ d, aget p t = some d ∧ d.available < q) →
      reduceTicketAvailability p t q = (false, p)) := by
  constructor
  · intro d hget hq
    refine ⟨?_, ?_, by omega, ?_⟩
    · simp [reduceTicketAvailability, hget, hq]
    · simp [reduceTicketAvailability, hget, hq, aget_aset_self]
    · intro u hu
      simp [reduceTicketAvailability, hget, hq, aget_aset_ne _ _ _ _ hu]
  · rintro (hnone | ⟨d, hget, hlt⟩)
    · simp [reduceTicketAvailability, hnone]
    · simp [reduceTicketAvailability, hget, not_le.mpr hlt, hlt.not_le]

/-- C2 witness: concrete evaluation of the success branch of
`reduceTicketAvailability_post` (VIP tickets, 5 available, buy 2). -/
theorem reduceTicketAvailability_post_witness :
    (aget [("vip", TicketTypeData.mk "VIP" 150 5 "")] "vip" =
       some (TicketTypeData.mk "VIP" 150 5 "") ∧ (2 : ℤ) ≤ 5) ∧
    (reduceTicketAvailability [("vip", TicketTypeData.mk "VIP" 150 5 "")]
        "vip" 2).1 = true ∧
    aget (reduceTicketAvailability [("vip", TicketTypeData.mk "VIP" 150 5 "")]
        "vip" 2).2 "vip" = some (TicketTypeData.mk "VIP" 150 3 "") := by
  have h := (reduceTicketAvailability_post
      [("vip", TicketTypeData.mk "VIP" 150 5 "")] "vip" 2).1
      (TicketTypeData.mk "VIP" 150 5 "") (by decide) (by decide)
  exact ⟨⟨by decide, by decide⟩, h.1, h.2.1⟩

/-- Model of JavaScript `String.prototype.trim`: drop whitespace from both
ends.  (Lean's own `String.trim` is used nowhere because its byte-position
implementation does not reduce in the kernel.) -/
def jsTrim (s : String) : String :=
  String.mk (((s.data.dropWhile Char.isWhitespace).reverse.dropWhile
    Char.isWhitespace).reverse)

example : jsTrim "  hi  " = "hi" := by decide
example : jsTrim "   " = "" := by decide

/-- JavaScript `a || b` for an optional string: the stored value when it is
present and truthy (non-empty), otherwise the default. -/
def jsOrStr (o : Option String) (d : String) : String :=
  match o with
  | some s => if s = "" then d else s
  | none => d

/-- One element of the `pricingOptions` array accepted by `parsePricingData`
(`Backend/controller/event.js`).  `none` fields model absent (`undefined`)
properties; numeric fields are modelled as already-parsed numbers. -/
structure RawOption where
  id : Option String
  name : Option String
  price : Option ℚ
  available : Option ℤ
  description : Option String
deriving DecidableEq

/-- The flat request body consumed by `parsePricingData`.  Indexed fields
such as `pricing_<i>_name` are modelled as functions from the index;
`pricingOptions` is `some` exactly when the field is present and is (or
JSON-parses to) an array. -/
structure RawBody where
  pricingOptions : Option (List RawOption)
  pricingName : ℕ → Option String
  pricingPrice : ℕ → Option ℚ
  pricingAvailable : ℕ → Option ℤ
  pricingDescription : ℕ → Option String
  ticketName : ℕ → Option String
  ticketPrice : ℕ → Option ℚ
  ticketAvailable : ℕ → Option ℤ
  ticketDescription : ℕ → Option String
  regularPrice : Option ℚ
  regularAvailable : Option ℤ
  regularDescription : Option String
  vipPrice : Option ℚ
  vipAvailable : Option ℤ
  vipDescription : Option String

/-- Format-1 body of the `pricingOptions.forEach` callback (event.js lines
38–48): include the option when `name` is truthy and `price`/`available`
are not `undefined`; the id falls back to `option_<index+1>`. -/
def fmt1Add (m : Pricing) (index : ℕ) (option : RawOption) : Pricing :=
  match option.name, option.price, option.available with
  | some n, some pr, some av =>
      if n ≠ "" then
        aset m (jsOrStr option.id ("option_" ++ toString (index + 1)))
          { name := jsTrim n, price := pr, available := av,
            description := jsOrStr option.description "" }
      else m
  | _, _, _ => m

/-- Format-2 loop body (event.js lines 53–68): fields
`pricing_<i>_name` / `pricing_<i>_price` / `pricing_<i>_available`. -/
def fmt2Add (b : RawBody) (m : Pricing) (index : ℕ) : Pricing :=
  match b.pricingName index, b.pricingPrice index, b.pricingAvailable index with
  | some n, some pr, some av =>
      if n ≠ "" then
        aset m ("option_" ++ toString (index + 1))
          { name := jsTrim n, price := pr, available := av,
            description := jsOrStr (b.pricingDescription index) "" }
      else m
  | _, _, _ => m

/-- Format-3 loop body (event.js lines 72–87): fields
`ticketName_<i>` / `ticketPrice_<i>` / `ticketAvailable_<i>`. -/
def fmt3Add (b : RawBody) (m : Pricing) (index : ℕ) : Pricing :=
  match b.ticketName index, b.ticketPrice index, b.ticketAvailable index with
  | some n, some pr, some av =>
      if n ≠ "" then
        aset m ("option_" ++ toString (index + 1))
          { name := jsTrim n, price := pr, available := av,
            description := jsOrStr (b.ticketDescription index) "" }
      else m
  | _, _, _ => m

/-- Format-4 legacy fallback (event.js lines 91–108): `regular` and `vip`
entries from `regularPrice`/`regularAvailable` and `vipPrice`/`vipAvailable`. -/
def fmt4Add (b : RawBody) (m : Pricing) : Pricing :=
  let m1 := match b.regularPrice, b.regularAvailable with
    | some pr, some av =>
        aset m "regular"
          { name := "Regular", price := pr, available := av,
            description := jsOrStr b.regularDescription "" }
    | _, _ => m
  match b.vipPrice, b.vipAvailable with
  | some pr, some av =>
      aset m1 "vip"
        { name := "VIP", price := pr, available := av,
          description := jsOrStr b.vipDescription "" }
  | _, _ => m1

/-- `parsePricingData` (event.js lines 24–111).  Priority 1 returns as soon
as `pricingOptions` is an array; priority 2 always runs its loop; priorities
3 and 4 run only while the map is still empty. -/
def parsePricingData (b : RawBody) : Pricing :=
  let pricingMap : Pricing := []
  match b.pricingOptions with
  | some opts => opts.enum.foldl (fun m p => fmt1Add m p.1 p.2) pricingMap
  | none =>
    let pricingMap := (List.range 10).foldl (fmt2Add b) pricingMap
    let pricingMap := if pricingMap.length = 0
      then (List.range 10).foldl (fmt3Add b) pricingMap else pricingMap
    if pricingMap.length = 0 then fmt4Add b pricingMap else pricingMap

/-- The set of entries format 1 yields on its own. -/
def parseFormat1 (opts : List RawOption) : Pricing :=
  opts.enum.foldl (fun m p => fmt1Add m p.1 p.2) []

/-- The set of entries format 2 yields on its own. -/
def parseFormat2 (b : RawBody) : Pricing :=
  (List.range 10).foldl (fmt2Add b) []

/-- The set of entries format 3 yields on its own. -/
def parseFormat3 (b : RawBody) : Pricing :=
  (List.range 10).foldl (fmt3Add b) []

/-- The set of entries format 4 yields on its own. -/
def parseFormat4 (b : RawBody) : Pricing :=
  fmt4Add b []

/-- Result record of `validatePricingData` (`{valid, message}`); a valid
result carries the empty message. -/
structure ValidationResult where
  valid : Bool
  message : String
deriving DecidableEq, Repr

/-- The per-entry loop of `validatePricingData` (event.js lines 123–133):
first offending entry decides the message. -/
def validateEntries : Pricing → ValidationResult
  | [] => ⟨true, ""⟩
  | (key, value) :: rest =>
      if value.name = "" ∨ jsTrim value.name = "" then
        ⟨false, "Pricing option " ++ key ++ " must have a name"⟩
      else if value.price < 0 then
        ⟨false, "Price for " ++ value.name ++ " cannot be negative"⟩
      else if value.available < 0 then
        ⟨false, "Available tickets for " ++ value.name ++ " cannot be negative"⟩
      else validateEntries rest

/-- `validatePricingData` (event.js lines 114–136): between 1 and 10
entries, then the per-entry checks. -/
def validatePricingData (pricingMap : Pricing) : ValidationResult :=
  if pricingMap.length = 0 then
    ⟨false, "At least one pricing option is required"⟩
  else if 10 < pricingMap.length then
    ⟨false, "Maximum 10 pricing options allowed"⟩
  else validateEntries pricingMap

/-- The per-entry bounds demanded by the spec: non-blank trimmed name,
price ≥ 0, available ≥ 0. -/
def entryOk (v : TicketTypeData) : Prop :=
  jsTrim v.name ≠ "" ∧ 0 ≤ v.price ∧ 0 ≤ v.available

instance (v : TicketTypeData) : Decidable (entryOk v) := by
  unfold entryOk; infer_instance

lemma jsTrim_empty : jsTrim "" = "" := rfl

lemma validateEntries_spec (m : Pricing) :
    ((validateEntries m).valid = true ↔ ∀ e ∈ m, entryOk e.2) ∧
    ((validateEntries m).valid = false → ∃ e ∈ m, ¬ entryOk e.2 ∧
      ((validateEntries m).message =
          "Pricing option " ++ e.1 ++ " must have a name" ∨
       (validateEntries m).message =
          "Price for " ++ e.2.name ++ " cannot be negative" ∨
       (validateEntries m).message =
          "Available tickets for " ++ e.2.name ++ " cannot be negative")) := by
  induction m with
  | nil => simp [validateEntries]
  | cons hd tl ih =>
      obtain ⟨key, value⟩ := hd
      by_cases h1 : value.name = "" ∨ jsTrim value.name = ""
      · have hbad : ¬ entryOk value := by
          rcases h1 with h1 | h1
          · intro hok; exact hok.1 (h1 ▸ jsTrim_empty)
          · intro hok; exact hok.1 h1
        have heq : validateEntries ((key, value) :: tl) =
            ⟨false, "Pricing option " ++ key ++ " must have a name"⟩ := by
          rw [validateEntries, if_pos h1]
        constructor
        · rw [heq]
          constructor
          · intro hfalse; cases hfalse
          · intro hall
            exact absurd (hall (key, value) (List.mem_cons_self _ _)) hbad
        · intro _
          exact ⟨(key, value), List.mem_cons_self _ _, hbad, by
            rw [heq]; exact Or.inl rfl⟩
      · by_cases h2 : value.price < 0
        · have hbad : ¬ entryOk value := fun hok => absurd h2 (not_lt.mpr hok.2.1)
          have heq : validateEntries ((key, value) :: tl) =
              ⟨false, "Price for " ++ value.name ++ " cannot be negative"⟩ := by
            rw [validateEntries, if_neg h1, if_pos h2]
          constructor
          · rw [heq]
            constructor
            · intro hfalse; cases hfalse
            · intro hall
              exact absurd (hall (key, value) (List.mem_cons_self _ _)) hbad
          · intro _
            exact ⟨(key, value), List.mem_cons_self _ _, hbad, by
              rw [heq]; exact Or.inr (Or.inl rfl)⟩
        · by_cases h3 : value.available < 0
          · have hbad : ¬ entryOk value := fun hok => absurd h3 (not_lt.mpr hok.2.2)
            have heq : validateEntries ((key, value) :: tl) =
                ⟨false,
                  "Available tickets for " ++ value.name ++ " cannot be negative"⟩ := by
              rw [validateEntries, if_neg h1, if_neg h2, if_pos h3]
            constructor
            · rw [heq]
              constructor
              · intro hfalse; cases hfalse
              · intro hall
                exact absurd (hall (key, value) (List.mem_cons_self _ _)) hbad
            · intro _
              exact ⟨(key, value), List.mem_cons_self _ _, hbad, by
                rw [heq]; exact Or.inr (Or.inr rfl)⟩
          · have hok : entryOk value := by
              refine ⟨?_, not_lt.mp h2, not_lt.mp h3⟩
              intro htrim
              exact h1 (Or.inr htrim)
            have heq : validateEntries ((key, value) :: tl) = validateEntries tl := by
              rw [validateEntries, if_neg h1, if_neg h2, if_neg h3]
            constructor
            · rw [heq, ih.1]
              constructor
              · intro hall e he
                rcases List.mem_cons.mp he with he | he
                · subst he; exact hok
                · exact hall e he
              · intro hall e he
                exact hall e (List.mem_cons_of_mem _ he)
            · intro hfalse
              rw [heq] at hfalse
              obtain ⟨e, he, hb, hmsg⟩ := ih.2 hfalse
              exact ⟨e, List.mem_cons_of_mem _ he, hb, by rw [heq]; exact hmsg⟩

/-- C7: validation postcondition.  Applied to the output of
`parsePricingData`, `validatePricingData` accepts exactly when the map has
between 1 and 10 entries all of which have a non-blank trimmed name, price
≥ 0 and available ≥ 0; and whenever the map is within the size bound and
some entry violates the per-entry bounds, validation fails and the message
names an offending ticket type (its key or its display name). -/
theorem validatePricingData_parse_post (b : RawBody) :
    ((validatePricingData (parsePricingData b)).valid = true ↔
      1 ≤ (parsePricingData b).length ∧ (parsePricingData b).length ≤ 10 ∧
      ∀ e ∈ parsePricingData b, entryOk e.2) ∧
    (∀ e ∈ parsePricingData b, ¬ entryOk e.2 →
      (parsePricingData b).length ≤ 10 →
      (validatePricingData (parsePricingData b)).valid = false ∧
      ∃ e' ∈ parsePricingData b, ¬ entryOk e'.2 ∧
        ((validatePricingData (parsePricingData b)).message =
            "Pricing option " ++ e'.1 ++ " must have a name" ∨
         (validatePricingData (parsePricingData b)).message =
            "Price for " ++ e'.2.name ++ " cannot be negative" ∨
         (validatePricingData (parsePricingData b)).message =
            "Available tickets for " ++ e'.2.name ++ " cannot be negative")) := by
  set m := parsePricingData b with hm
  by_cases h0 : m.length = 0
  · have hnil : m = [] := List.length_eq_zero.mp h0
    constructor
    · simp [validatePricingData, h0, hnil]
    · intro e he
      rw [hnil] at he
      cases he
  · by_cases h10 : 10 < m.length
    · have hv : validatePricingData m =
          ⟨false, "Maximum 10 pricing options allowed"⟩ := by
        rw [validatePricingData, if_neg h0, if_pos h10]
      constructor
      · rw [hv]
        constructor
        · intro hfalse; cases hfalse
        · rintro ⟨-, hle, -⟩; omega
      · intro e he hb hle; omega
    · have hval : validatePricingData m = validateEntries m := by
        rw [validatePricingData, if_neg h0, if_neg h10]
      constructor
      · rw [hval, (validateEntries_spec m).1]
        have h1 : 1 ≤ m.length := by omega
        have h2 : m.length ≤ 10 := by omega
        simp [h1, h2]
      · intro e he hbad _
        have hfalse : (validateEntries m).valid = false := by
          rcases Bool.eq_false_or_eq_true (validateEntries m).valid with h | h
          · exact absurd (((validateEntries_spec m).1.mp h) e he) hbad
          · exact h
        refine ⟨by rw [hval]; exact hfalse, ?_⟩
        obtain ⟨e', he', hb', hmsg⟩ := (validateEntries_spec m).2 hfalse
        exact ⟨e', he', hb', by rw [hval]; exact hmsg⟩

/-- A concrete raw body for the C7 witness: legacy format with regular
tickets priced −5. -/
def c7Body : RawBody :=
  ⟨none, fun _ => none, fun _ => none, fun _ => none, fun _ => none,
    fun _ => none, fun _ => none, fun _ => none, fun _ => none,
    some (-5), some 10, none, none, none, none⟩

/-- C7 witness: `c7Body` is parsed to one entry with a negative price and
rejected by validation. -/
theorem validatePricingData_parse_post_witness :
    (("regular", TicketTypeData.mk "Regular" (-5) 10 "") ∈
        parsePricingData c7Body ∧
      ¬ entryOk (TicketTypeData.mk "Regular" (-5) 10 "") ∧
      (parsePricingData c7Body).length ≤ 10) ∧
    (validatePricingData (parsePricingData c7Body)).valid = false := by
  refine ⟨⟨by decide, by decide, by decide⟩, ?_⟩
  exact ((validatePricingData_parse_post c7Body).2
    ("regular", TicketTypeData.mk "Regular" (-5) 10 "")
    (by decide) (by decide) (by decide)).1


/-- A raw body whose `pricingOptions` field is an empty array while the
legacy `regularPrice`/`regularAvailable` fields are present. -/
def c6Body : RawBody :=
  ⟨some [], fun _ => none, fun _ => none, fun _ => none, fun _ => none,
    fun _ => none, fun _ => none, fun _ => none, fun _ => none,
    some 10, some 5, none, none, none, none⟩

/-- C6 counterexample: on `c6Body` format 1 yields no entries and format 4
yields a non-empty result, yet `parsePricingData` returns the empty map.
The parser never consults lower-priority formats once `pricingOptions` is
an array, so "whenever a format yields no entries the next format in
priority order is consulted" fails for format 1. -/
theorem parsePricingData_priority_counterexample :
    c6Body.pricingOptions = some [] ∧
    parseFormat1 [] = [] ∧
    parseFormat2 c6Body = [] ∧
    parseFormat3 c6Body = [] ∧
    parseFormat4 c6Body = [("regular", TicketTypeData.mk "Regular" 10 5 "")] ∧
    parsePricingData c6Body = [] := by
  decide

/-- C6 (amended): the four formats are tried in strict priority order and
never merged.  When `pricingOptions` is (or parses to) an array, format 1
is used exclusively — even when it yields no entries, in which case no
lower-priority format is consulted; otherwise format 2's result is used if
non-empty, else format 3's if non-empty, else format 4's. -/
theorem parsePricingData_priority (b : RawBody) :
    (∀ opts, b.pricingOptions = some opts →
      parsePricingData b = parseFormat1 opts) ∧
    (b.pricingOptions = none → parseFormat2 b ≠ [] →
      parsePricingData b = parseFormat2 b) ∧
    (b.pricingOptions = none → parseFormat2 b = [] → parseFormat3 b ≠ [] →
      parsePricingData b = parseFormat3 b) ∧
    (b.pricingOptions = none → parseFormat2 b = [] → parseFormat3 b = [] →
      parsePricingData b = parseFormat4 b) := by
  refine ⟨?_, ?_, ?_, ?_⟩
  · intro opts h
    simp [parsePricingData, h, parseFormat1]
  · intro h hne
    have hlen : ¬ ((List.range 10).foldl (fmt2Add b) ([] : Pricing)).length = 0 := by
      rw [List.length_eq_zero]
      exact hne
    simp only [parsePricingData, h]
    rw [if_neg hlen, if_neg hlen]
    rfl
  · intro h h2 hne
    have h2' : (List.range 10).foldl (fmt2Add b) ([] : Pricing) = [] := h2
    have hlen3 : ¬ ((List.range 10).foldl (fmt3Add b) ([] : Pricing)).length = 0 := by
      rw [List.length_eq_zero]
      exact hne
    simp [parsePricingData, h, h2', hlen3, parseFormat3]
  · intro h h2 h3
    have h2' : (List.range 10).foldl (fmt2Add b) ([] : Pricing) = [] := h2
    have h3' : (List.range 10).foldl (fmt3Add b) ([] : Pricing) = [] := h3
    simp [parsePricingData, h, h2', h3', parseFormat4]

/-- A raw body using the indexed `pricing_<i>_*` format for the C6 witness. -/
def c6WitnessBody : RawBody :=
  ⟨none, (fun i => if i = 0 then some "Early" else none),
    (fun i => if i = 0 then some 50 else none),
    (fun i => if i = 0 then some 100 else none), fun _ => none,
    fun _ => none, fun _ => none, fun _ => none, fun _ => none,
    none, none, none, none, none, none⟩

/-- C6 witness: evaluation of the amended priority theorem on a body that
matches format 2. -/
theorem parsePricingData_priority_witness :
    (c6WitnessBody.pricingOptions = none ∧ parseFormat2 c6WitnessBody ≠ []) ∧
    parsePricingData c6WitnessBody = parseFormat2 c6WitnessBody := by
  exact ⟨⟨by decide, by decide⟩,
    (parsePricingData_priority c6WitnessBody).2.1 (by decide) (by decide)⟩

/-- Transaction lifecycle status (the `status` enum of
`models/Transaction.js`). -/
inductive TxnStatus
  | PENDING
  | COMPLETED
  | FAILED
  | CANCELLED
  | PAID
deriving DecidableEq, Repr

/-- The `paymentDetails` payload attached to a transaction: absent, the raw
provider capture data, a recorded error, or a cancellation reason. -/
inductive PayDetails
  | empty
  | captured (raw : String)
  | error (msg : String)
  | cancelled (reason : String)
deriving DecidableEq, Repr

/-- One Transaction document (`models/Transaction.js`). -/
structure Txn where
  transactionId : String
  userId : String
  ticketId : String
  paypalOrderId : String
  amount : ℚ
  ticketCount : ℤ
  ticketType : String
  ticketTypeName : String
  pricePerTicket : ℚ
  status : TxnStatus
  paymentStatus : String
  paymentDetails : PayDetails
deriving DecidableEq, Repr

/-- The store of record: Event documents (event id ↦ pricing map) and the
Transaction collection in insertion order. -/
structure DB where
  events : List (String × Pricing)
  txns : List Txn
deriving DecidableEq, Repr

/-- The `findOne` filter used by the Complete and Cancel flows: same
provider order reference and status still `PENDING`. -/
def isPendingFor (token : String) (t : Txn) : Bool :=
  decide (t.paypalOrderId = token ∧ t.status = TxnStatus.PENDING)

/-- `Transaction.findOne({paypalOrderId: token, status: 'PENDING'})`:
first matching document together with its position in the collection
(the position models the document identity `transaction.save()` writes to). -/
def findPendingTxn (token : String) : List Txn → Option (ℕ × Txn)
  | [] => none
  | t :: ts =>
      if isPendingFor token t then some (0, t)
      else (findPendingTxn token ts).map (fun p => (p.1 + 1, p.2))

/-- Outcome of `completeOrderController` as seen by the caller. -/
inductive CompleteRes
  | missingToken
  | notFound
  | success (transactionId : String) (remainingTickets : ℤ)
  | failed (transactionId : String) (err : String)
deriving DecidableEq, Repr

/-- The thread-local state of one `completeOrderController` invocation,
split at its await points.  The shared store is touched only by `coFind`
(the `findOne` + `populate` read), `coSaveEvent` (`event.save()`) and
`coSaveTxn` (`transaction.save()`); the capture and all checks run on the
snapshot taken by `coFind`. -/
inductive CoState
  | found (i : ℕ) (txn : Txn) (pricingSnap : Pricing)
  | decremented (i : ℕ) (txn : Txn) (newPricing : Pricing)
  | savedEvent (i : ℕ) (txn : Txn) (remainingTickets : ℤ)
  | failing (i : ℕ) (txn : Txn) (err : String)
  | done (res : CompleteRes)
deriving DecidableEq, Repr

/-- `completeOrderController` step 1 (payment controller lines 262–274):
the `findOne` + `populate('ticketId')` database read, the not-found return,
and the event-still-exists check (which uses only the populated snapshot). -/
def coFind (token : String) (db : DB) : CoState :=
  match findPendingTxn token db.txns with
  | none => .done .notFound
  | some (i, t) =>
      match aget db.events t.ticketId with
      | none =>
          .failing i t "Event associated with this transaction no longer exists"
      | some pricing => .found i t pricing

/-- `completeOrderController` steps 2–3 (lines 277–293): the external
`capturePayment(token)` call, whose outcome is the oracle `captureOk`,
followed by the availability double-check and the in-memory
`reduceTicketAvailability`, both computed on the pricing snapshot taken by
`coFind` — not re-read from the store. -/
def coCapture (st : CoState) (captureOk : Bool) : CoState :=
  match st with
  | .found i t pricing =>
      if captureOk then
        match aget pricing t.ticketType with
        | none =>
            .failing i t
              ("Insufficient " ++ t.ticketTypeName ++ " tickets available")
        | some d =>
            if d.available < t.ticketCount then
              .failing i t
                ("Insufficient " ++ t.ticketTypeName ++ " tickets available")
            else
              let r := reduceTicketAvailability pricing t.ticketType t.ticketCount
              if r.1 then .decremented i t r.2
              else .failing i t "Failed to update ticket availability"
      else .failing i t "PayPal capture failed"
  | s => s

/-- `completeOrderController` step 4 (line 295): `event.save()` writes the
locally decremented pricing snapshot back over the stored event document —
a whole-map overwrite, last write wins.  The remaining-ticket count
reported to the caller (lines 304–305) is read from the local document. -/
def coSaveEvent (st : CoState) (db : DB) : CoState × DB :=
  match st with
  | .decremented i t newPricing =>
      let remaining := match aget newPricing t.ticketType with
        | some d => d.available
        | none => 0
      (.savedEvent i t remaining,
       { db with events := aset db.events t.ticketId newPricing })
  | s => (s, db)

/-- `completeOrderController` final step: `transaction.save()`.  On the
success path (lines 298–301) the located transaction becomes `COMPLETED`
with `paymentStatus` "paid" and the capture data attached; on the catch
path (lines 328–332) it becomes `FAILED` with the error recorded. -/
def coSaveTxn (st : CoState) (db : DB) : CoState × DB :=
  match st with
  | .savedEvent i t remaining =>
      let t' :=
        { t with
            status := TxnStatus.COMPLETED,
            paymentStatus := "paid",
            paymentDetails := PayDetails.captured "paypal" }
      (.done (.success t.transactionId remaining),
       { db with txns := db.txns.set i t' })
  | .failing i t err =>
      let t' :=
        { t with
            status := TxnStatus.FAILED,
            paymentDetails := PayDetails.error err }
      (.done (.failed t.transactionId err),
       { db with txns := db.txns.set i t' })
  | s => (s, db)

/-- Extract the caller-visible result once an invocation has run all its
steps (after `coSaveTxn` the state is always `done`). -/
def coResult : CoState → CompleteRes
  | .done res => res
  | _ => .notFound

/-- `completeOrderController` (payment controller lines 253–339) run as one
sequential, uninterleaved invocation: find the pending transaction, call
the provider, save the decremented event, save the transaction.
`token = ""` models a missing `token` query parameter. -/
def completeOrderController (token : String) (captureOk : Bool) (db : DB) :
    CompleteRes × DB :=
  if token = "" then (.missingToken, db)
  else
    let st1 := coFind token db
    let st2 := coCapture st1 captureOk
    let p3 := coSaveEvent st2 db
    let p4 := coSaveTxn p3.1 p3.2
    (coResult p4.1, p4.2)

/-- Outcome of `cancelOrderController`. -/
inductive CancelRes
  | cancelled (transactionId : String)
  | processed
deriving DecidableEq, Repr

/-- `cancelOrderController` (lines 341–370): with a truthy token and a
matching `PENDING` transaction, move it to `CANCELLED` with the reason
payload; in every other case answer the generic "Order cancellation
processed" acknowledgment without touching the store. -/
def cancelOrderController (token : Option String) (db : DB) :
    CancelRes × DB :=
  match token with
  | some tok =>
      if tok ≠ "" then
        match findPendingTxn tok db.txns with
        | some (i, t) =>
            let t' :=
              { t with
                  status := TxnStatus.CANCELLED,
                  paymentDetails :=
                    PayDetails.cancelled "User cancelled payment" }
            (.cancelled t.transactionId, { db with txns := db.txns.set i t' })
        | none => (.processed, db)
      else (.processed, db)
  | none => (.processed, db)

/-- A create-purchase request body (`POST /payment/pay`).  `none` models an
absent field; the JS required-field check is by truthiness, so `0` and `""`
also count as missing. -/
structure CreateReq where
  ticketId : Option String
  ticketCount : Option ℤ
  ticketType : Option String
  pricePerTicket : Option ℚ
deriving DecidableEq, Repr

/-- JS truthiness of an optional string field. -/
def truthyS : Option String → Bool
  | some s => decide (s ≠ "")
  | none => false

/-- JS truthiness of an optional integer field. -/
def truthyZ : Option ℤ → Bool
  | some n => decide (n ≠ 0)
  | none => false

/-- JS truthiness of an optional rational field. -/
def truthyQ : Option ℚ → Bool
  | some q => decide (q ≠ 0)
  | none => false

/-- Model of JavaScript `Math.abs` on rationals (kernel-computable, unlike
the bundled lattice `|·|`). -/
def jsAbs (q : ℚ) : ℚ := if q < 0 then -q else q

lemma jsAbs_eq_abs (q : ℚ) : jsAbs q = |q| := by
  rcases lt_or_le q 0 with h | h
  · rw [jsAbs, if_pos h, abs_of_neg h]
  · rw [jsAbs, if_neg (not_lt.mpr h), abs_of_nonneg h]

/-- Outcome of `createOrderController` as seen by the caller. -/
inductive CreateRes
  | missingFields
  | eventNotFound
  | ticketTypeNotAvailable
  | priceMismatch (expectedPrice providedPrice : ℚ)
  | insufficientTickets (availableTickets : ℤ)
  | providerError
  | ok (transactionId : String) (totalAmount : ℚ)
deriving DecidableEq, Repr

/-- `createOrderController` (payment controller lines 164–251).  `userId`
and `newTxnId` stand for `req.user.id` and the generated uuid;
`paypalOrder` is the provider oracle — `some orderId` when the external
`createOrder` call succeeds, `none` when it throws, in which case the JS
`catch` answers 500 before any transaction is persisted. -/
def createOrderController (req : CreateReq) (userId newTxnId : String)
    (paypalOrder : Option String) (db : DB) : CreateRes × DB :=
  if !(truthyS req.ticketId && truthyZ req.ticketCount &&
       truthyS req.ticketType && truthyQ req.pricePerTicket) then
    (.missingFields, db)
  else
    match aget db.events (req.ticketId.getD "") with
    | none => (.eventNotFound, db)
    | some pricing =>
        match aget pricing (req.ticketType.getD "") with
        | none => (.ticketTypeNotAvailable, db)
        | some ticketTypeData =>
            let provided := req.pricePerTicket.getD 0
            if (1 : ℚ)/100 < jsAbs (provided - ticketTypeData.price) then
              (.priceMismatch ticketTypeData.price provided, db)
            else
              let requestedCount := req.ticketCount.getD 0
              if ticketTypeData.available < requestedCount then
                (.insufficientTickets ticketTypeData.available, db)
              else
                let totalPrice := provided * (requestedCount : ℚ)
                match paypalOrder with
                | none => (.providerError, db)
                | some orderId =>
                    (.ok newTxnId totalPrice,
                     { db with txns := db.txns ++
                        [{ transactionId := newTxnId, userId := userId,
                           ticketId := req.ticketId.getD "",
                           paypalOrderId := orderId, amount := totalPrice,
                           ticketCount := requestedCount,
                           ticketType := req.ticketType.getD "",
                           ticketTypeName := ticketTypeData.name,
                           pricePerTicket := provided,
                           status := TxnStatus.PENDING,
                           paymentStatus := "",
                           paymentDetails := PayDetails.empty }] })

/-- Externally visible actions of one `completeOrderController` invocation,
in program order. -/
inductive CoAction
  | findPending (token : String)
  | capture (token : String)
  | availCheck (ticketType : String) (count : ℤ)
  | decrement (ticketType : String) (count : ℤ)
  | saveEvent
  | saveTxn (status : TxnStatus)
deriving DecidableEq, Repr

/-- The action trace of one `completeOrderController` invocation — the same
control flow as the step functions above: the `capturePayment` call at line
277 precedes the availability double-check at lines 284–287, which precedes
the decrement at line 290. -/
def completeTrace (token : String) (captureOk : Bool) (db : DB) :
    List CoAction :=
  if token = "" then []
  else
    CoAction.findPending token ::
    match findPendingTxn token db.txns with
    | none => []
    | some (_, t) =>
        match aget db.events t.ticketId with
        | none => [CoAction.saveTxn TxnStatus.FAILED]
        | some pricing =>
            CoAction.capture token ::
            if captureOk then
              CoAction.availCheck t.ticketType t.ticketCount ::
              match aget pricing t.ticketType with
              | none => [CoAction.saveTxn TxnStatus.FAILED]
              | some d =>
                  if d.available < t.ticketCount then
                    [CoAction.saveTxn TxnStatus.FAILED]
                  else
                    [CoAction.decrement t.ticketType t.ticketCount,
                     CoAction.saveEvent, CoAction.saveTxn TxnStatus.COMPLETED]
            else [CoAction.saveTxn TxnStatus.FAILED]

/-- Total quantity bought by transactions of the given ticket type that
reached `COMPLETED`. -/
def completedUnits (ticketType : String) (txns : List Txn) : ℤ :=
  (txns.filter (fun t =>
    decide (t.status = TxnStatus.COMPLETED ∧ t.ticketType = ticketType))).foldl
    (fun s t => s + t.ticketCount) 0

lemma findPendingTxn_eq_none {token : String} {l : List Txn} :
    findPendingTxn token l = none ↔
      ∀ t ∈ l, isPendingFor token t = false := by
  induction l with
  | nil => simp [findPendingTxn]
  | cons hd tl ih =>
      by_cases hc : isPendingFor token hd
      · simp [findPendingTxn, hc]
      · simp [findPendingTxn, hc, Option.map_eq_none', ih,
          Bool.not_eq_true _ ▸ hc]

lemma findPendingTxn_some {token : String} {l : List Txn} {i : ℕ} {t : Txn}
    (h : findPendingTxn token l = some (i, t)) :
    ∃ hi : i < l.length, l.get ⟨i, hi⟩ = t ∧ isPendingFor token t = true := by
  induction l generalizing i with
  | nil => simp [findPendingTxn] at h
  | cons hd tl ih =>
      by_cases hc : isPendingFor token hd
      · rw [findPendingTxn, if_pos hc] at h
        have h2 : ((0 : ℕ), hd) = (i, t) := Option.some.inj h
        have h0 : (0 : ℕ) = i := congrArg Prod.fst h2
        have ht : hd = t := congrArg Prod.snd h2
        subst h0
        subst ht
        exact ⟨Nat.succ_pos _, rfl, hc⟩
      · rw [findPendingTxn, if_neg hc] at h
        rcases Option.map_eq_some'.mp h with ⟨⟨j, u⟩, hf, hji⟩
        have hj1 : j + 1 = i := congrArg Prod.fst hji
        have hu : u = t := congrArg Prod.snd hji
        subst hj1
        subst hu
        obtain ⟨hj, hget, hp⟩ := ih hf
        exact ⟨Nat.succ_lt_succ hj, hget, hp⟩

lemma findPendingTxn_set_none {token : String} {l : List Txn} {i : ℕ}
    {t0 : Txn} (hfind : findPendingTxn token l = some (i, t0))
    (hcount : l.countP (isPendingFor token) ≤ 1)
    {t' : Txn} (ht' : isPendingFor token t' = false) :
    findPendingTxn token (l.set i t') = none := by
  induction l generalizing i with
  | nil => simp [findPendingTxn] at hfind
  | cons hd tl ih =>
      by_cases hc : isPendingFor token hd
      · rw [findPendingTxn, if_pos hc] at hfind
        have h0 : (0 : ℕ) = i := congrArg Prod.fst (Option.some.inj hfind)
        subst h0
        have htl : tl.countP (isPendingFor token) = 0 := by
          have hcons := List.countP_cons_of_pos (isPendingFor token) tl hc
          omega
        rw [List.set_cons_zero]
        rw [findPendingTxn, if_neg (by simp [ht'])]
        rw [Option.map_eq_none']
        exact findPendingTxn_eq_none.mpr
          (fun t ht => Bool.eq_false_iff.mpr (List.countP_eq_zero.mp htl t ht))
      · rw [findPendingTxn, if_neg hc] at hfind
        rcases Option.map_eq_some'.mp hfind with ⟨⟨j, u⟩, hf, hji⟩
        have hj1 : j + 1 = i := congrArg Prod.fst hji
        have hu : u = t0 := congrArg Prod.snd hji
        subst hj1
        subst hu
        have hcl : tl.countP (isPendingFor token) ≤ 1 := by
          rwa [List.countP_cons_of_neg (isPendingFor token) tl hc] at hcount
        rw [List.set_cons_succ]
        rw [findPendingTxn, if_neg hc, Option.map_eq_none']
        exact ih hf hcl

lemma mem_set_of_get_ne {α : Type} {l : List α} {i : ℕ} {a b : α}
    (hb : b ∈ l) (hne : ∀ hi : i < l.length, l.get ⟨i, hi⟩ ≠ b) :
    b ∈ l.set i a := by
  induction l generalizing i with
  | nil => cases hb
  | cons hd tl ih =>
      cases i with
      | zero =>
          rcases List.mem_cons.mp hb with hbh | hbt
          · exact absurd (hbh ▸ rfl) (hne (Nat.succ_pos _))
          · rw [List.set_cons_zero]
            exact List.mem_cons_of_mem _ hbt
      | succ j =>
          rw [List.set_cons_succ]
          rcases List.mem_cons.mp hb with hbh | hbt
          · exact hbh ▸ List.mem_cons_self _ _
          · exact List.mem_cons_of_mem _
              (ih hbt (fun hj => hne (Nat.succ_lt_succ hj)))

lemma complete_eq_notFound {token : String} {o : Bool} {db : DB}
    (htok : token ≠ "") (hf : findPendingTxn token db.txns = none) :
    completeOrderController token o db = (.notFound, db) := by
  simp [completeOrderController, htok, coFind, hf, coCapture, coSaveEvent,
    coSaveTxn, coResult]

lemma complete_eq_eventMissing {token : String} {o : Bool} {db : DB}
    {i : ℕ} {t0 : Txn} (htok : token ≠ "")
    (hf : findPendingTxn token db.txns = some (i, t0))
    (hev : aget db.events t0.ticketId = none) :
    completeOrderController token o db =
      (.failed t0.transactionId
          "Event associated with this transaction no longer exists",
       { db with
           txns := db.txns.set i
             { t0 with
                 status := TxnStatus.FAILED,
                 paymentDetails := PayDetails.error
                   "Event associated with this transaction no longer exists" } }) := by
  simp [completeOrderController, htok, coFind, hf, hev, coCapture,
    coSaveEvent, coSaveTxn, coResult]

lemma complete_eq_captureFail {token : String} {db : DB}
    {i : ℕ} {t0 : Txn} {pricing : Pricing} (htok : token ≠ "")
    (hf : findPendingTxn token db.txns = some (i, t0))
    (hev : aget db.events t0.ticketId = some pricing) :
    completeOrderController token false db =
      (.failed t0.transactionId "PayPal capture failed",
       { db with
           txns := db.txns.set i
             { t0 with
                 status := TxnStatus.FAILED,
                 paymentDetails := PayDetails.error "PayPal capture failed" } }) := by
  simp [completeOrderController, htok, coFind, hf, hev, coCapture,
    coSaveEvent, coSaveTxn, coResult]

lemma complete_eq_typeMissing {token : String} {db : DB}
    {i : ℕ} {t0 : Txn} {pricing : Pricing} (htok : token ≠ "")
    (hf : findPendingTxn token db.txns = some (i, t0))
    (hev : aget db.events t0.ticketId = some pricing)
    (hgt : aget pricing t0.ticketType = none) :
    completeOrderController token true db =
      (.failed t0.transactionId
          ("Insufficient " ++ t0.ticketTypeName ++ " tickets available"),
       { db with
           txns := db.txns.set i
             { t0 with
                 status := TxnStatus.FAILED,
                 paymentDetails := PayDetails.error
                   ("Insufficient " ++ t0.ticketTypeName ++
                     " tickets available") } }) := by
  simp [completeOrderController, htok, coFind, hf, hev, coCapture, hgt,
    coSaveEvent, coSaveTxn, coResult]

lemma complete_eq_insufficient {token : String} {db : DB}
    {i : ℕ} {t0 : Txn} {pricing : Pricing} {d : TicketTypeData}
    (htok : token ≠ "")
    (hf : findPendingTxn token db.txns = some (i, t0))
    (hev : aget db.events t0.ticketId = some pricing)
    (hgt : aget pricing t0.ticketType = some d)
    (hlt : d.available < t0.ticketCount) :
    completeOrderController token true db =
      (.failed t0.transactionId
          ("Insufficient " ++ t0.ticketTypeName ++ " tickets available"),
       { db with
           txns := db.txns.set i
             { t0 with
                 status := TxnStatus.FAILED,
                 paymentDetails := PayDetails.error
                   ("Insufficient " ++ t0.ticketTypeName ++
                     " tickets available") } }) := by
  simp [completeOrderController, htok, coFind, hf, hev, coCapture, hgt, hlt,
    coSaveEvent, coSaveTxn, coResult]

lemma complete_eq_success {token : String} {db : DB}
    {i : ℕ} {t0 : Txn} {pricing : Pricing} {d : TicketTypeData}
    (htok : token ≠ "")
    (hf : findPendingTxn token db.txns = some (i, t0))
    (hev : aget db.events t0.ticketId = some pricing)
    (hgt : aget pricing t0.ticketType = some d)
    (hge : ¬ d.available < t0.ticketCount) :
    completeOrderController token true db =
      (.success t0.transactionId (d.available - t0.ticketCount),
       { db with
           events := aset db.events t0.ticketId
             (aset pricing t0.ticketType
               { d with available := d.available - t0.ticketCount }),
           txns := db.txns.set i
             { t0 with
                 status := TxnStatus.COMPLETED,
                 paymentStatus := "paid",
                 paymentDetails := PayDetails.captured "paypal" } }) := by
  have hle : t0.ticketCount ≤ d.available := not_lt.mp hge
  simp [completeOrderController, htok, coFind, hf, hev, coCapture, hgt, hge,
    reduceTicketAvailability, hle, coSaveEvent, aget_aset_self, coSaveTxn,
    coResult]

lemma complete_txns_shape {token : String} {o : Bool} {db : DB} {i : ℕ}
    {t0 : Txn} (htok : token ≠ "")
    (hf : findPendingTxn token db.txns = some (i, t0)) :
    ∃ t', (completeOrderController token o db).2.txns = db.txns.set i t' ∧
      isPendingFor token t' = false := by
  cases hev : aget db.events t0.ticketId with
  | none =>
      refine ⟨{ t0 with
          status := TxnStatus.FAILED,
          paymentDetails := PayDetails.error
            "Event associated with this transaction no longer exists" },
        ?_, ?_⟩
      · rw [complete_eq_eventMissing (o := o) htok hf hev]
      · simp [isPendingFor]
  | some pricing =>
      cases o with
      | false =>
          refine ⟨{ t0 with
              status := TxnStatus.FAILED,
              paymentDetails := PayDetails.error "PayPal capture failed" },
            ?_, ?_⟩
          · rw [complete_eq_captureFail htok hf hev]
          · simp [isPendingFor]
      | true =>
          cases hgt : aget pricing t0.ticketType with
          | none =>
              refine ⟨{ t0 with
                  status := TxnStatus.FAILED,
                  paymentDetails := PayDetails.error
                    ("Insufficient " ++ t0.ticketTypeName ++
                      " tickets available") }, ?_, ?_⟩
              · rw [complete_eq_typeMissing htok hf hev hgt]
              · simp [isPendingFor]
          | some d =>
              by_cases hlt : d.available < t0.ticketCount
              · refine ⟨{ t0 with
                    status := TxnStatus.FAILED,
                    paymentDetails := PayDetails.error
                      ("Insufficient " ++ t0.ticketTypeName ++
                        " tickets available") }, ?_, ?_⟩
                · rw [complete_eq_insufficient htok hf hev hgt hlt]
                · simp [isPendingFor]
              · refine ⟨{ t0 with
                    status := TxnStatus.COMPLETED,
                    paymentStatus := "paid",
                    paymentDetails := PayDetails.captured "paypal" }, ?_, ?_⟩
                · rw [complete_eq_success htok hf hev hgt hlt]
                · simp [isPendingFor]

/-- C3: idempotence of Complete.  If at most one transaction carries the
provider order reference in `PENDING` state (the unique pending order for
that reference), then whatever a first `completeOrderController` call did —
complete it, fail it, or find nothing — a second call with the same
reference finds no `PENDING` transaction, reports not-found-or-already-
processed, and changes nothing: two calls make at most one decrement and
at most one `COMPLETED` transition. -/
theorem completeOrderController_idempotent (db : DB) (token : String)
    (o1 o2 : Bool) (htok : token ≠ "")
    (huniq : db.txns.countP (isPendingFor token) ≤ 1) :
    completeOrderController token o2
        (completeOrderController token o1 db).2 =
      (CompleteRes.notFound, (completeOrderController token o1 db).2) := by
  cases hf : findPendingTxn token db.txns with
  | none =>
      have h1 := complete_eq_notFound (o := o1) htok hf
      rw [h1]
      exact complete_eq_notFound htok hf
  | some p =>
      obtain ⟨i, t0⟩ := p
      obtain ⟨t', hshape, hpf⟩ := complete_txns_shape (o := o1) htok hf
      have hnone : findPendingTxn token
          (completeOrderController token o1 db).2.txns = none := by
        rw [hshape]
        exact findPendingTxn_set_none hf huniq hpf
      exact complete_eq_notFound htok hnone

/-- C8: terminal states are absorbing.  A transaction whose status is not
`PENDING` (`COMPLETED`, `PAID`, `FAILED` or `CANCELLED`) is left in the
collection untouched — same record, same status — by every
`completeOrderController` and every `cancelOrderController` invocation,
because both operations locate and mutate only a transaction still in
`PENDING`. -/
theorem terminal_status_absorbing (db : DB) (token : String) (o : Bool)
    (cancelToken : Option String) (t : Txn) (ht : t ∈ db.txns)
    (hterm : t.status ≠ TxnStatus.PENDING) :
    t ∈ (completeOrderController token o db).2.txns ∧
    t ∈ (cancelOrderController cancelToken db).2.txns := by
  constructor
  · by_cases htok : token = ""
    · simpa [completeOrderController, htok] using ht
    · cases hf : findPendingTxn token db.txns with
      | none =>
          rw [complete_eq_notFound htok hf]
          exact ht
      | some p =>
          obtain ⟨i, t0⟩ := p
          obtain ⟨t', hshape, -⟩ := complete_txns_shape (o := o) htok hf
          rw [hshape]
          obtain ⟨hi, hget, hpend⟩ := findPendingTxn_some hf
          simp only [isPendingFor, decide_eq_true_eq] at hpend
          apply mem_set_of_get_ne ht
          intro hi' heq
          have hg2 : db.txns.get ⟨i, hi'⟩ = t0 := hget
          have htt0 : t0 = t := by rw [← heq, hg2]
          exact hterm (htt0 ▸ hpend.2)
  · cases cancelToken with
    | none => simpa [cancelOrderController] using ht
    | some tok =>
        by_cases htok : tok = ""
        · simpa [cancelOrderController, htok] using ht
        · cases hf : findPendingTxn tok db.txns with
          | none => simpa [cancelOrderController, htok, hf] using ht
          | some p =>
              obtain ⟨i, t0⟩ := p
              have hres : (cancelOrderController (some tok) db).2.txns =
                  db.txns.set i
                    { t0 with
                        status := TxnStatus.CANCELLED,
                        paymentDetails :=
                          PayDetails.cancelled "User cancelled payment" } := by
                simp [cancelOrderController, htok, hf]
              rw [hres]
              obtain ⟨hi, hget, hpend⟩ := findPendingTxn_some hf
              simp only [isPendingFor, decide_eq_true_eq] at hpend
              apply mem_set_of_get_ne ht
              intro hi' heq
              have hg2 : db.txns.get ⟨i, hi'⟩ = t0 := hget
              have htt0 : t0 = t := by rw [← heq, hg2]
              exact hterm (htt0 ▸ hpend.2)

/-- C9: no dangling `PENDING` on Complete failure.  Whenever
`completeOrderController` locates a `PENDING` transaction (the find step
succeeds) and the invocation does not end in success — missing event,
failed capture, vanished ticket type, or insufficient availability at the
re-check — the located transaction is written back with status `FAILED`
and the error message recorded in its payment details; it is never left in
`PENDING`. -/
theorem complete_failure_marks_failed (db : DB) (token : String) (o : Bool)
    (i : ℕ) (t0 : Txn) (htok : token ≠ "")
    (hf : findPendingTxn token db.txns = some (i, t0))
    (hnots : ∀ tid rem,
      (completeOrderController token o db).1 ≠ CompleteRes.success tid rem) :
    ∃ err, completeOrderController token o db =
      (CompleteRes.failed t0.transactionId err,
       { db with
           txns := db.txns.set i
             { t0 with
                 status := TxnStatus.FAILED,
                 paymentDetails := PayDetails.error err } }) := by
  cases hev : aget db.events t0.ticketId with
  | none => exact ⟨_, complete_eq_eventMissing htok hf hev⟩
  | some pricing =>
      cases o with
      | false => exact ⟨_, complete_eq_captureFail htok hf hev⟩
      | true =>
          cases hgt : aget pricing t0.ticketType with
          | none => exact ⟨_, complete_eq_typeMissing htok hf hev hgt⟩
          | some d =>
              by_cases hlt : d.available < t0.ticketCount
              · exact ⟨_, complete_eq_insufficient htok hf hev hgt hlt⟩
              · exfalso
                exact hnots t0.transactionId (d.available - t0.ticketCount)
                  (by rw [complete_eq_success htok hf hev hgt hlt])

/-- C4 (amended): order of steps in Complete.  The inventory decrement
happens only after a successful capture — any `decrement` action in the
trace implies the capture succeeded and appears strictly earlier in the
trace.  The availability re-check, however, does NOT precede the provider
capture: it is performed after it, so when the re-check finds insufficient
stock the invocation fails the transaction with the payment already
captured. -/
theorem completeTrace_order (token : String) (o : Bool) (db : DB)
    (tt : String) (c : ℤ) :
    (CoAction.decrement tt c ∈ completeTrace token o db →
      o = true ∧
      ∃ l1 l2, completeTrace token o db =
        l1 ++ CoAction.capture token :: l2 ∧
        CoAction.decrement tt c ∈ l2) ∧
    (∀ i t0 pricing d, token ≠ "" →
      findPendingTxn token db.txns = some (i, t0) →
      aget db.events t0.ticketId = some pricing →
      aget pricing t0.ticketType = some d →
      d.available < t0.ticketCount →
      CoAction.capture token ∈ completeTrace token true db ∧
      (completeOrderController token true db).1 =
        CompleteRes.failed t0.transactionId
          ("Insufficient " ++ t0.ticketTypeName ++ " tickets available")) := by
  constructor
  · intro hmem
    by_cases htok : token = ""
    · rw [completeTrace, if_pos htok] at hmem
      cases hmem
    · cases hf : findPendingTxn token db.txns with
      | none =>
          have htr : completeTrace token o db = [CoAction.findPending token] := by
            simp [completeTrace, htok, hf]
          rw [htr] at hmem
          simp at hmem
      | some p =>
          obtain ⟨j, t0⟩ := p
          cases hev : aget db.events t0.ticketId with
          | none =>
              have htr : completeTrace token o db =
                  [CoAction.findPending token,
                   CoAction.saveTxn TxnStatus.FAILED] := by
                simp [completeTrace, htok, hf, hev]
              rw [htr] at hmem
              simp at hmem
          | some pricing =>
              cases o with
              | false =>
                  have htr : completeTrace token false db =
                      [CoAction.findPending token, CoAction.capture token,
                       CoAction.saveTxn TxnStatus.FAILED] := by
                    simp [completeTrace, htok, hf, hev]
                  rw [htr] at hmem
                  simp at hmem
              | true =>
                  cases hgt : aget pricing t0.ticketType with
                  | none =>
                      have htr : completeTrace token true db =
                          [CoAction.findPending token, CoAction.capture token,
                           CoAction.availCheck t0.ticketType t0.ticketCount,
                           CoAction.saveTxn TxnStatus.FAILED] := by
                        simp [completeTrace, htok, hf, hev, hgt]
                      rw [htr] at hmem
                      simp at hmem
                  | some d =>
                      by_cases hlt : d.available < t0.ticketCount
                      · have htr : completeTrace token true db =
                            [CoAction.findPending token, CoAction.capture token,
                             CoAction.availCheck t0.ticketType t0.ticketCount,
                             CoAction.saveTxn TxnStatus.FAILED] := by
                          simp [completeTrace, htok, hf, hev, hgt, hlt]
                        rw [htr] at hmem
                        simp at hmem
                      · have htr : completeTrace token true db =
                            [CoAction.findPending token, CoAction.capture token,
                             CoAction.availCheck t0.ticketType t0.ticketCount,
                             CoAction.decrement t0.ticketType t0.ticketCount,
                             CoAction.saveEvent,
                             CoAction.saveTxn TxnStatus.COMPLETED] := by
                          simp [completeTrace, htok, hf, hev, hgt, hlt]
                        rw [htr] at hmem
                        refine ⟨rfl, [CoAction.findPending token],
                          [CoAction.availCheck t0.ticketType t0.ticketCount,
                           CoAction.decrement t0.ticketType t0.ticketCount,
                           CoAction.saveEvent,
                           CoAction.saveTxn TxnStatus.COMPLETED], ?_, ?_⟩
                        · rw [htr]
                          rfl
                        · simp at hmem ⊢
                          exact hmem
  · intro i t0 pricing d htok hf hev hgt hlt
    have htr : completeTrace token true db =
        [CoAction.findPending token, CoAction.capture token,
         CoAction.availCheck t0.ticketType t0.ticketCount,
         CoAction.saveTxn TxnStatus.FAILED] := by
      simp [completeTrace, htok, hf, hev, hgt, hlt]
    constructor
    · rw [htr]
      simp
    · rw [complete_eq_insufficient htok hf hev hgt hlt]

/-- A pending transaction for 1 ticket of type `t` on event `E`, provider
order reference `r`. -/
def c4Txn : Txn :=
  ⟨"x1", "u1", "E", "r", 10, 1, "t", "T", 10, TxnStatus.PENDING, "",
    PayDetails.empty⟩

/-- A store where event `E` has 0 tickets of type `t` left while `c4Txn` is
still `PENDING`. -/
def c4Db : DB :=
  ⟨[("E", [("t", TicketTypeData.mk "T" 10 0 "")])], [c4Txn]⟩

/-- C4 counterexample: on `c4Db` the stock is insufficient at completion
time, yet the trace shows the capture (index 1) issued BEFORE the
availability re-check (index 2), and the invocation still captured the
payment: the claim "the availability re-check is performed before the
provider capture call is issued (insufficient stock raises the hard
failure without capturing payment)" is false of the code. -/
theorem completeTrace_order_counterexample :
    completeTrace "r" true c4Db =
      [CoAction.findPending "r", CoAction.capture "r",
       CoAction.availCheck "t" 1, CoAction.saveTxn TxnStatus.FAILED] ∧
    (completeOrderController "r" true c4Db).1 =
      CompleteRes.failed "x1" "Insufficient T tickets available" := by
  decide

/-- C4 witness: evaluation of the amended ordering theorem on a store with
ample stock: any decrement in the trace is preceded by the capture. -/
theorem completeTrace_order_witness :
    CoAction.decrement "t" 1 ∈ completeTrace "r1"
      true (DB.mk [("E", [("t", TicketTypeData.mk "T" 10 5 "")])]
        [Txn.mk "x1" "u1" "E" "r1" 10 1 "t" "T" 10 TxnStatus.PENDING ""
          PayDetails.empty]) ∧
    ∃ l1 l2, completeTrace "r1"
        true (DB.mk [("E", [("t", TicketTypeData.mk "T" 10 5 "")])]
          [Txn.mk "x1" "u1" "E" "r1" 10 1 "t" "T" 10 TxnStatus.PENDING ""
            PayDetails.empty]) =
      l1 ++ CoAction.capture "r1" :: l2 ∧ CoAction.decrement "t" 1 ∈ l2 := by
  refine ⟨by decide, ?_⟩
  exact ((completeTrace_order "r1" true
    (DB.mk [("E", [("t", TicketTypeData.mk "T" 10 5 "")])]
      [Txn.mk "x1" "u1" "E" "r1" 10 1 "t" "T" 10 TxnStatus.PENDING ""
        PayDetails.empty]) "t" 1).1 (by decide)).2

/-- The first racing transaction: buyer `u1` wants 1 ticket of type `t` of
event `E`, provider order reference `r1`. -/
def raceTxnA : Txn :=
  ⟨"x1", "u1", "E", "r1", 10, 1, "t", "T", 10, TxnStatus.PENDING, "",
    PayDetails.empty⟩

/-- The second racing transaction: buyer `u2`, same last ticket, provider
order reference `r2`. -/
def raceTxnB : Txn :=
  ⟨"x2", "u2", "E", "r2", 10, 1, "t", "T", 10, TxnStatus.PENDING, "",
    PayDetails.empty⟩

/-- Initial store for the overselling race: event `E` has exactly 1 ticket
of type `t` available while both transactions are `PENDING`. -/
def raceDb : DB :=
  ⟨[("E", [("t", TicketTypeData.mk "T" 10 1 "")])], [raceTxnA, raceTxnB]⟩

/-- The interleaving of two concurrent `completeOrderController`
invocations (tokens `r1` and `r2`, both captures succeeding) in which both
perform their `findOne` + `populate` read before either writes: A finds,
B finds, A captures, B captures, A saves the event, B saves the event, A
saves its transaction, B saves its transaction.  Every step is exactly one
shared-store access or one provider call, so this is a legal schedule of
two concurrent requests against the store. -/
def raceRun : CompleteRes × CompleteRes × DB :=
  let a1 := coFind "r1" raceDb
  let b1 := coFind "r2" raceDb
  let a2 := coCapture a1 true
  let b2 := coCapture b1 true
  let pa := coSaveEvent a2 raceDb
  let pb := coSaveEvent b2 pa.2
  let qa := coSaveTxn pa.1 pb.2
  let qb := coSaveTxn pb.1 qa.2
  (coResult qa.1, coResult qb.1, qb.2)

/-- C1: overselling under concurrency.  Starting from 1 available ticket,
the schedule of `raceRun` drives BOTH racing completions to `COMPLETED`:
2 units are sold against an initial availability of 1, because each
invocation re-checks and decrements its own stale populated snapshot and
`event.save()` is a last-write-wins overwrite rather than an atomic
conditional decrement at the store.  This exhibits the violation of "the
sum of quantities decremented by transactions that reach COMPLETED never
exceeds A; at most one concurrent completion succeeds past the
decrement". -/
theorem overselling_race :
    aget raceDb.events "E" = some [("t", TicketTypeData.mk "T" 10 1 "")] ∧
    completedUnits "t" raceDb.txns = 0 ∧
    raceRun.1 = CompleteRes.success "x1" 0 ∧
    raceRun.2.1 = CompleteRes.success "x2" 0 ∧
    completedUnits "t" raceRun.2.2.txns = 2 ∧
    ¬ completedUnits "t" raceRun.2.2.txns ≤ 1 := by
  decide

/-- C5: price integrity in `createOrderController`.  For a request with all
required fields truthy whose event and ticket type exist: if the supplied
price-per-ticket differs from the stored price by more than 0.01, the
request is answered with the price-mismatch error and the store — no new
transaction, no inventory change — is exactly as before; if the supplied
price is within 0.01 of the stored price, the price check passes and the
result is never a price mismatch. -/
theorem createOrder_price_integrity (req : CreateReq)
    (userId newTxnId : String) (paypalOrder : Option String) (db : DB)
    (pricing : Pricing) (d : TicketTypeData)
    (hfields : (truthyS req.ticketId && truthyZ req.ticketCount &&
      truthyS req.ticketType && truthyQ req.pricePerTicket) = true)
    (hev : aget db.events (req.ticketId.getD "") = some pricing)
    (htt : aget pricing (req.ticketType.getD "") = some d) :
    ((1 : ℚ)/100 < jsAbs (req.pricePerTicket.getD 0 - d.price) →
      createOrderController req userId newTxnId paypalOrder db =
        (CreateRes.priceMismatch d.price (req.pricePerTicket.getD 0), db)) ∧
    (jsAbs (req.pricePerTicket.getD 0 - d.price) ≤ (1 : ℚ)/100 →
      ∀ e p, (createOrderController req userId newTxnId paypalOrder db).1 ≠
        CreateRes.priceMismatch e p) := by
  have hng : ¬ ((!(truthyS req.ticketId && truthyZ req.ticketCount &&
      truthyS req.ticketType && truthyQ req.pricePerTicket)) = true) := by
    rw [hfields]
    simp
  constructor
  · intro hgt
    simp only [createOrderController]
    rw [if_neg hng]
    simp only [hev, htt]
    rw [if_pos hgt]
  · intro hle e p
    have hnot : ¬ ((1 : ℚ)/100 < jsAbs (req.pricePerTicket.getD 0 - d.price)) :=
      not_lt.mpr hle
    by_cases hav : d.available < req.ticketCount.getD 0
    · have heq : (createOrderController req userId newTxnId paypalOrder db).1 =
          CreateRes.insufficientTickets d.available := by
        simp only [createOrderController]
        rw [if_neg hng]
        simp only [hev, htt]
        rw [if_neg hnot, if_pos hav]
      rw [heq]
      intro hcontra
      cases hcontra
    · cases paypalOrder with
      | none =>
          have heq : (createOrderController req userId newTxnId
              none db).1 = CreateRes.providerError := by
            simp only [createOrderController]
            rw [if_neg hng]
            simp only [hev, htt]
            rw [if_neg hnot, if_neg hav]
          rw [heq]
          intro hcontra
          cases hcontra
      | some oid =>
          have heq : (createOrderController req userId newTxnId
              (some oid) db).1 =
              CreateRes.ok newTxnId
                (req.pricePerTicket.getD 0 *
                  ((req.ticketCount.getD 0 : ℤ) : ℚ)) := by
            simp only [createOrderController]
            rw [if_neg hng]
            simp only [hev, htt]
            rw [if_neg hnot, if_neg hav]
          rw [heq]
          intro hcontra
          cases hcontra

/-- Event store for the create-flow witnesses: one event `E` with a single
ticket type `t` priced 50, 100 available. -/
def c5Db : DB := ⟨[("E", [("t", TicketTypeData.mk "T" 50 100 "")])], []⟩

/-- C5 witness: supplying 60 against a stored price of 50 is rejected with
the price-mismatch error and the store is unchanged. -/
theorem createOrder_price_integrity_witness :
    (((truthyS (some "E") && truthyZ (some 2) && truthyS (some "t") &&
        truthyQ (some 60)) = true) ∧
      aget c5Db.events "E" = some [("t", TicketTypeData.mk "T" 50 100 "")] ∧
      (1 : ℚ)/100 < jsAbs ((60 : ℚ) - 50)) ∧
    createOrderController ⟨some "E", some 2, some "t", some 60⟩ "u1" "x1"
        (some "o1") c5Db = (CreateRes.priceMismatch 50 60, c5Db) := by
  refine ⟨⟨by decide, by decide, by norm_num [jsAbs]⟩, ?_⟩
  exact (createOrder_price_integrity ⟨some "E", some 2, some "t", some 60⟩
    "u1" "x1" (some "o1") c5Db [("t", TicketTypeData.mk "T" 50 100 "")]
    (TicketTypeData.mk "T" 50 100 "") (by decide) (by decide) (by decide)).1
    (by norm_num [jsAbs])

/-- C10 (amended): `createOrderController` tests field presence by
truthiness, and 0 is falsy, so any request whose `pricePerTicket` or
`ticketCount` equals 0 is rejected with the missing-fields validation
error and no state change. -/
theorem createOrder_zero_rejected (req : CreateReq)
    (userId newTxnId : String) (paypalOrder : Option String) (db : DB)
    (h : req.pricePerTicket = some 0 ∨ req.ticketCount = some 0) :
    createOrderController req userId newTxnId paypalOrder db =
      (CreateRes.missingFields, db) := by
  rcases h with h | h
  · simp [createOrderController, h, truthyQ]
  · simp [createOrderController, h, truthyZ]

/-- The store for the C10 counterexample: ticket type `free` is priced 0 —
a price the pricing validator accepts. -/
def c10Db : DB := ⟨[("E", [("free", TicketTypeData.mk "Free" 0 10 "")])], []⟩

/-- The purchase request of the C10 counterexample: 1 ticket of the
zero-priced type at a supplied price of 0.01. -/
def c10Req : CreateReq := ⟨some "E", some 1, some "free", some ((1 : ℚ)/100)⟩

/-- C10 counterexample: a zero-priced ticket type CAN be purchased through
`createOrderController` — supplying `pricePerTicket = 0.01` is truthy and
passes the ±0.01 tolerance check against the stored price 0, so the
request succeeds and a `PENDING` transaction is created, refuting "can
never be purchased". -/
theorem createOrder_zero_price_counterexample :
    aget c10Db.events "E" =
      some [("free", TicketTypeData.mk "Free" 0 10 "")] ∧
    (validatePricingData [("free", TicketTypeData.mk "Free" 0 10 "")]).valid
        = true ∧
    createOrderController c10Req "u1" "x1" (some "o1") c10Db =
      (CreateRes.ok "x1" ((1 : ℚ)/100),
       { c10Db with
           txns := [{ transactionId := "x1", userId := "u1",
                      ticketId := "E", paypalOrderId := "o1",
                      amount := (1 : ℚ)/100, ticketCount := 1,
                      ticketType := "free", ticketTypeName := "Free",
                      pricePerTicket := (1 : ℚ)/100,
                      status := TxnStatus.PENDING, paymentStatus := "",
                      paymentDetails := PayDetails.empty }] }) := by
  refine ⟨by decide, by decide, ?_⟩
  norm_num [createOrderController, c10Req, c10Db, aget, truthyS, truthyZ,
    truthyQ, jsAbs]
  exact ⟨by decide, by decide⟩

/-- C10 witness: a request with `pricePerTicket = 0` is rejected as
missing fields. -/
theorem createOrder_zero_rejected_witness :
    ((⟨some "E", some 1, some "free", some 0⟩ : CreateReq).pricePerTicket
        = some 0 ∨
      (⟨some "E", some 1, some "free", some 0⟩ : CreateReq).ticketCount
        = some 0) ∧
    createOrderController ⟨some "E", some 1, some "free", some 0⟩ "u1" "x1"
        (some "o1") c10Db = (CreateRes.missingFields, c10Db) :=
  ⟨Or.inl rfl, createOrder_zero_rejected _ "u1" "x1" (some "o1") c10Db
    (Or.inl rfl)⟩

/-- A single pending transaction (1 ticket of type `t`, reference `r1`)
used by the Complete-flow witnesses. -/
def wTxn : Txn :=
  ⟨"x1", "u1", "E", "r1", 10, 1, "t", "T", 10, TxnStatus.PENDING, "",
    PayDetails.empty⟩

/-- Store with 5 tickets available and `wTxn` pending. -/
def wDb : DB := ⟨[("E", [("t", TicketTypeData.mk "T" 10 5 "")])], [wTxn]⟩

/-- C3 witness: after a successful completion of `r1` on `wDb`, a second
Complete call with the same reference is a no-op answering not-found. -/
theorem completeOrderController_idempotent_witness :
    (("r1" : String) ≠ "" ∧ wDb.txns.countP (isPendingFor "r1") ≤ 1) ∧
    completeOrderController "r1" true
        (completeOrderController "r1" true wDb).2 =
      (CompleteRes.notFound, (completeOrderController "r1" true wDb).2) :=
  ⟨⟨by decide, by decide⟩,
    completeOrderController_idempotent wDb "r1" true true (by decide)
      (by decide)⟩

/-- A terminal (`COMPLETED`) transaction sharing the store with `wTxn`. -/
def wTxnDone : Txn :=
  ⟨"x2", "u2", "E", "r2", 10, 1, "t", "T", 10, TxnStatus.COMPLETED, "paid",
    PayDetails.captured "paypal"⟩

/-- Store holding both a pending and a terminal transaction. -/
def w8Db : DB :=
  ⟨[("E", [("t", TicketTypeData.mk "T" 10 5 "")])], [wTxn, wTxnDone]⟩

/-- C8 witness: the `COMPLETED` transaction survives both a Complete and a
Cancel invocation for its own order reference untouched. -/
theorem terminal_status_absorbing_witness :
    (wTxnDone ∈ w8Db.txns ∧ wTxnDone.status ≠ TxnStatus.PENDING) ∧
    (wTxnDone ∈ (completeOrderController "r2" true w8Db).2.txns ∧
     wTxnDone ∈ (cancelOrderController (some "r2") w8Db).2.txns) :=
  ⟨⟨by decide, by decide⟩,
    terminal_status_absorbing w8Db "r2" true (some "r2") wTxnDone
      (by decide) (by decide)⟩

/-- C9 witness: a failed capture on `wDb` leaves the located transaction
`FAILED` with the error recorded, not `PENDING`. -/
theorem complete_failure_marks_failed_witness :
    (("r1" : String) ≠ "" ∧
      findPendingTxn "r1" wDb.txns = some (0, wTxn) ∧
      ∀ tid rem, (completeOrderController "r1" false wDb).1 ≠
        CompleteRes.success tid rem) ∧
    ∃ err, completeOrderController "r1" false wDb =
      (CompleteRes.failed wTxn.transactionId err,
       { wDb with
           txns := wDb.txns.set 0
             { wTxn with
                 status := TxnStatus.FAILED,
                 paymentDetails := PayDetails.error err } }) := by
  have hres : (completeOrderController "r1" false wDb).1 =
      CompleteRes.failed "x1" "PayPal capture failed" := by decide
  refine ⟨⟨by decide, by decide, ?_⟩, ?_⟩
  · intro tid rem hcontra
    rw [hres] at hcontra
    cases hcontra
  · exact complete_failure_marks_failed wDb "r1" false 0 wTxn (by decide)
      (by decide)
      (by
        intro tid rem hcontra
        rw [hres] at hcontra
        cases hcontra)
